import Mathlib

/-!
Shallow embedding of the request-orchestration core of the nsdotjs client
(class NSScript: makeNsHtmlRequest and getNsHtmlPage), together with the
mutual-exclusion gate, the session-token store and the response
classification that those two methods implement.

Modelling conventions:
* JavaScript strings are Lean `String`; `String.prototype.includes` and
  `String.prototype.endsWith` are modelled as executable scans over the
  underlying character lists.
* `localStorage` values are `Option String` (`none` = the key is absent,
  which `getItem` reports as `null`); the JavaScript truthiness test
  `if (value)` used by the source is `jsTruthy`, on which the empty string
  is falsy.
* The asynchronous control flow of one pipeline call is flattened into an
  event trace.  `syncTrace` lists the effects that happen before control
  returns to the caller; `deferredTrace` lists the effects of detached
  continuations (the `response.blob().then(...)` and
  `response.text().then(...)` steps of the source), which run only after
  the call has already settled.  Folding a trace over a state with
  `runEvents` yields the state at the corresponding point in time.
* All thrown values in the source are plain `new Error(message)` objects;
  they are modelled by `JsError`, whose `name` field is the constructor
  tag (always "Error" here) and whose `message` field is the message.
-/

deriving instance DecidableEq for Except

namespace NsDotJs

/-- JavaScript `Error` value: `new Error(m)` has `name = "Error"` and
`message = m`.  Every throw site of the embedded core constructs one of
these. -/
structure JsError where
  name : String
  message : String
deriving Repr, DecidableEq

/-- Model of `new Error(m)`. -/
def mkError (m : String) : JsError := { name := "Error", message := m }

/-- Fetch API response, restricted to the fields the source reads. -/
structure Resp where
  status : Nat
  statusText : String
  body : String
  url : String
deriving Repr, DecidableEq

/-- Fetch API `response.ok`: true exactly when the status is in the 2xx
range. -/
def Resp.ok (r : Resp) : Bool := 200 ≤ r.status && r.status < 300

/-- Outcome of the `fetch` call, supplied as an oracle: the promise either
rejects with a network error or resolves with a response. -/
inductive FetchResult
  | throws (msg : String)
  | responds (r : Resp)
deriving Repr, DecidableEq

/-- The mutable state the core touches: the gate flag
`NSScript.isHtmlRequestInProgress` and the two `localStorage` keys
`lastKnownChk` and `lastKnownLocalid`. -/
structure SimState where
  isHtmlRequestInProgress : Bool
  lastKnownChk : Option String
  lastKnownLocalid : Option String
deriving Repr, DecidableEq

/-- JavaScript truthiness of a `localStorage.getItem` result: `null` and
the empty string are falsy, every other string is truthy. -/
def jsTruthy : Option String → Bool
  | none => false
  | some s => !(s == "")

/-- Scan modelling `String.prototype.includes` on character lists: does
`pat` occur as a contiguous run inside the second list? -/
def occursIn (pat : List Char) : List Char → Bool
  | [] => pat.isEmpty
  | c :: cs => List.isPrefixOf pat (c :: cs) || occursIn pat cs

/-- Model of the JavaScript expression `s.includes(pat)`. -/
def includes (s pat : String) : Bool := occursIn pat.data s.data

/-- Model of the JavaScript expression `s.endsWith(suffix)`. -/
def jsEndsWith (s suffixStr : String) : Bool := List.isSuffixOf suffixStr.data s.data

/-- Events of one pipeline call, in program order.  `check b` is the
simultaneity check (acquiring the gate when it succeeds), `userInput` is
the resolution of `await this.userInputHandler()`, `lock` is
`simultaneity.handleLock`, `fetchStart` records the wire request that the
`fetch` call is issued with, `unlock` is `simultaneity.handleUnlock`, and
`storeAuthEv` is the `storeAuth(doc)` token-store update carrying the
token pair extracted from the parsed document. -/
inductive Ev
  | check (ok : Bool)
  | userInput
  | lock
  | fetchStart (query : List (String × String)) (body : List (String × String)) (redirect : Bool)
  | unlock
  | storeAuthEv (ext : Option String × Option String)
deriving Repr, DecidableEq

/-- Modelled from the spec: `storeAuth` (module `networking/html/auth`,
whose body is not part of the provided sources) extracts the current
token pair from the parsed response document if present and overwrites
the store; extraction failure is silent and the store simply keeps the
previous values. -/
def storeAuth (s : SimState) (ext : Option String × Option String) : SimState :=
  { s with
    lastKnownChk := match ext.1 with | some c => some c | none => s.lastKnownChk
    lastKnownLocalid := match ext.2 with | some l => some l | none => s.lastKnownLocalid }

/-- Effect of one event on the mutable state.  Per the source comments,
`handleLock` sets the request-in-progress flag and `handleUnlock` clears
it; a successful simultaneity check transitions the gate to held. -/
def Ev.apply (s : SimState) : Ev → SimState
  | .check ok => if ok then { s with isHtmlRequestInProgress := true } else s
  | .userInput => s
  | .lock => { s with isHtmlRequestInProgress := true }
  | .fetchStart _ _ _ => s
  | .unlock => { s with isHtmlRequestInProgress := false }
  | .storeAuthEv ext => storeAuth s ext

/-- State reached after a list of events has run. -/
def runEvents (s : SimState) (tr : List Ev) : SimState := tr.foldl Ev.apply s

/-- Modelled from the spec: `simultaneity.handleCheck` (module
`networking/html/handlers/simultaneity`, whose body is not part of the
provided sources) is the check half of the tryAcquire contract: it
returns false immediately when an operation is already in flight and true
otherwise; the transition to in-flight on success is recorded by the
`Ev.check true` event. -/
def handleCheck (s : SimState) : Bool := !s.isHtmlRequestInProgress

/-- Query-string parameters built by `makeNsHtmlRequest` (lines 285-288):
`userclick` (the timestamp), `script` (the identification string), and —
unless the path ends in ".cgi" — `template-overall=none`. -/
def buildRequestParams (userclick scriptParamValue pagePath : String) :
    List (String × String) :=
  [("userclick", userclick), ("script", scriptParamValue)] ++
    (if jsEndsWith pagePath ".cgi" then [] else [("template-overall", "none")])

/-- Token field injection (lines 293-300): a field is appended only when
the `localStorage` value is truthy. -/
def tokenField (fieldName : String) (v : Option String) : List (String × String) :=
  match v with
  | some s => if s == "" then [] else [(fieldName, s)]
  | none => []

/-- Form body built by `makeNsHtmlRequest`: the caller payload is appended
first (lines 278-281), then `chk` and `localid` are appended when their
stored values are truthy (lines 293-300). -/
def buildPayloadParams (payload : List (String × String)) (chk localid : Option String) :
    List (String × String) :=
  payload ++ tokenField "chk" chk ++ tokenField "localid" localid

/-- Result of one `makeNsHtmlRequest` call: the settled promise value, the
events that ran before the promise settled back to the caller, and the
events of detached continuations that run only afterwards. -/
structure RawOutcome where
  result : Except JsError Resp
  syncTrace : List Ev
  deferredTrace : List Ev
deriving Repr, DecidableEq

/-- Embedding of `NSScript.makeNsHtmlRequest` (lines 250-328).  The gate
check runs first and rejects without any further effect; otherwise the
call awaits the user-input handler, locks, builds the wire request from
the current state, and issues the fetch.  A network throw is caught,
unlocks synchronously and rethrows.  On a response, when
`shouldUnlockSimul` is set the unlock is scheduled in a detached
`response.blob().then` continuation, so it is deferred past the return. -/
def makeNsHtmlRequest (s : SimState) (pagePath : String)
    (payload : List (String × String)) (userclick scriptParamValue : String)
    (fetchRes : FetchResult) (followRedirects shouldUnlockSimul : Bool) : RawOutcome :=
  if handleCheck s = false then
    { result := .error (mkError "Simultaneity check failed. Please try again.")
      syncTrace := [.check false]
      deferredTrace := [] }
  else
    let requestParams := buildRequestParams userclick scriptParamValue pagePath
    let payloadParams := buildPayloadParams payload s.lastKnownChk s.lastKnownLocalid
    match fetchRes with
    | .throws m =>
        { result := .error (mkError m)
          syncTrace := [.check true, .userInput, .lock,
            .fetchStart requestParams payloadParams followRedirects, .unlock]
          deferredTrace := [] }
    | .responds r =>
        { result := .ok r
          syncTrace := [.check true, .userInput, .lock,
            .fetchStart requestParams payloadParams followRedirects]
          deferredTrace := if shouldUnlockSimul then [.unlock] else [] }

/-- Result of one `getNsHtmlPage` call, with the same trace split as
`RawOutcome`. -/
structure PageOutcome where
  result : Except JsError String
  syncTrace : List Ev
  deferredTrace : List Ev
deriving Repr, DecidableEq

/-- Embedding of `NSScript.getNsHtmlPage` (lines 338-371).  It calls
`makeNsHtmlRequest` with `followRedirects = true` and
`shouldUnlockSimul = false`.  On a non-ok status the unlock is scheduled
in a detached `response.text().then` continuation and the transport error
is thrown immediately.  Otherwise the body is read, the unlock runs
synchronously, then the security-check marker and the Border Patrol
marker are tested (each throwing), and only on the clean path is the
document parsed and `storeAuth` invoked.  `storeAuthExtract` stands for
the token extraction that `parseHtml` plus `storeAuth` perform on the
body text. -/
def getNsHtmlPage (s : SimState) (pagePath : String)
    (payload : List (String × String)) (userclick scriptParamValue : String)
    (fetchRes : FetchResult)
    (storeAuthExtract : String → Option String × Option String) : PageOutcome :=
  let raw := makeNsHtmlRequest s pagePath payload userclick scriptParamValue fetchRes true false
  match raw.result with
  | .error e =>
      { result := .error e, syncTrace := raw.syncTrace, deferredTrace := raw.deferredTrace }
  | .ok r =>
      if r.ok = false then
        { result := .error (mkError ("Failed to fetch page: " ++ r.statusText))
          syncTrace := raw.syncTrace
          deferredTrace := raw.deferredTrace ++ [.unlock] }
      else
        let text := r.body
        if includes text "Failed security check" then
          { result := .error (mkError "Failed security check. Please run reauth and try again.")
            syncTrace := raw.syncTrace ++ [.unlock]
            deferredTrace := raw.deferredTrace }
        else if includes text "Border Patrol" then
          { result := .error (mkError "You need to solve the border patrol captcha before proceeding.")
            syncTrace := raw.syncTrace ++ [.unlock]
            deferredTrace := raw.deferredTrace }
        else
          { result := .ok text
            syncTrace := raw.syncTrace ++ [.unlock, .storeAuthEv (storeAuthExtract text)]
            deferredTrace := raw.deferredTrace }

/-- Four-way outcome of a completed exchange. -/
inductive Classification
  | success
  | authenticationFailure
  | challengeRequired
  | transportFailure
deriving Repr, DecidableEq

/-- The classification implicit in the branch order of `getNsHtmlPage`
(lines 343-367): the status check runs before any body inspection, the
security-check marker is tested before the Border Patrol marker, and the
clean 2xx path is success. -/
def classify (r : Resp) : Classification :=
  if r.ok = false then .transportFailure
  else if includes r.body "Failed security check" then .authenticationFailure
  else if includes r.body "Border Patrol" then .challengeRequired
  else .success

/-- Does the event record an issued fetch? -/
def Ev.isFetchStart : Ev → Bool
  | .fetchStart _ _ _ => true
  | _ => false

/-- Is the event the user-input (readiness) resolution? -/
def Ev.isUserInput : Ev → Bool
  | .userInput => true
  | _ => false

/-- Is the event a successful simultaneity check? -/
def Ev.isCheckTrue : Ev → Bool
  | .check b => b
  | _ => false

/-- Is the event the gate release? -/
def Ev.isUnlock : Ev → Bool
  | .unlock => true
  | _ => false

/-- Is the event the token-store update? -/
def Ev.isStoreAuth : Ev → Bool
  | .storeAuthEv _ => true
  | _ => false

/-- Was a fetch issued anywhere in the trace? -/
def issuedFetch (tr : List Ev) : Bool := tr.any Ev.isFetchStart

/-- The form bodies sent by the fetches recorded in a trace. -/
def sentBodies (tr : List Ev) : List (List (String × String)) :=
  tr.filterMap fun e =>
    match e with
    | .fetchStart _ b _ => some b
    | _ => none

/-- Does a parameter list carry a field with the given key? -/
def hasField (l : List (String × String)) (k : String) : Bool :=
  l.any fun kv => kv.1 == k

end NsDotJs
namespace NsDotJs

theorem hasField_append (a b : List (String × String)) (k : String) :
    hasField (a ++ b) k = (hasField a k || hasField b k) := by
  simp [hasField]

theorem hasField_tokenField (k k2 : String) (v : Option String) :
    hasField (tokenField k v) k2 = (jsTruthy v && (k == k2)) := by
  cases v with
  | none => simp [tokenField, hasField, jsTruthy]
  | some s =>
      by_cases hs : s = ""
      · simp [tokenField, hasField, jsTruthy, hs]
      · simp [tokenField, hasField, jsTruthy, beq_iff_eq, hs]

/-- C1: the claim states that on every exit path of `makeNsHtmlRequest`
the gate is false by the time the call returns.  On the concrete success
path below (gate initially free, fetch resolves with a 200 response,
`shouldUnlockSimul` at its default true) the gate is still held when the
call returns, because the source clears it only inside the detached
`response.blob().then` continuation; after that deferred continuation
runs the gate is false, and on the network-throw path it is false already
at return. -/
theorem claim_C1_gate_held_at_return :
    (runEvents ⟨false, none, none⟩
      (makeNsHtmlRequest ⟨false, none, none⟩ "page=x" [] "0" "sv"
        (.responds ⟨200, "OK", "done", "u"⟩) true true).syncTrace).isHtmlRequestInProgress
      = true ∧
    (runEvents ⟨false, none, none⟩
      ((makeNsHtmlRequest ⟨false, none, none⟩ "page=x" [] "0" "sv"
        (.responds ⟨200, "OK", "done", "u"⟩) true true).syncTrace ++
       (makeNsHtmlRequest ⟨false, none, none⟩ "page=x" [] "0" "sv"
        (.responds ⟨200, "OK", "done", "u"⟩) true true).deferredTrace)).isHtmlRequestInProgress
      = false ∧
    (runEvents ⟨false, none, none⟩
      (makeNsHtmlRequest ⟨false, none, none⟩ "page=x" [] "0" "sv"
        (.throws "NetworkError") true true).syncTrace).isHtmlRequestInProgress
      = false := by
  decide

/-- C2: while an operation is in flight, a second call to
`makeNsHtmlRequest` settles immediately with the simultaneity error, runs
nothing but the failed gate check (so it neither blocks nor queues), and
never issues its fetch. -/
theorem claim_C2_second_call_rejected (s : SimState) (pagePath : String)
    (payload : List (String × String)) (uc sv : String) (f : FetchResult) (fr su : Bool)
    (h : s.isHtmlRequestInProgress = true) :
    (makeNsHtmlRequest s pagePath payload uc sv f fr su).result =
      .error (mkError "Simultaneity check failed. Please try again.") ∧
    (makeNsHtmlRequest s pagePath payload uc sv f fr su).syncTrace = [.check false] ∧
    (makeNsHtmlRequest s pagePath payload uc sv f fr su).deferredTrace = [] ∧
    issuedFetch ((makeNsHtmlRequest s pagePath payload uc sv f fr su).syncTrace ++
      (makeNsHtmlRequest s pagePath payload uc sv f fr su).deferredTrace) = false := by
  simp [makeNsHtmlRequest, handleCheck, h, issuedFetch, Ev.isFetchStart]

theorem claim_C2_witness :
    (makeNsHtmlRequest ⟨true, none, none⟩ "page=x" [] "0" "sv"
      (.responds ⟨200, "OK", "done", "u"⟩) true true).result =
      .error (mkError "Simultaneity check failed. Please try again.") ∧
    (makeNsHtmlRequest ⟨true, none, none⟩ "page=x" [] "0" "sv"
      (.responds ⟨200, "OK", "done", "u"⟩) true true).syncTrace = [.check false] ∧
    (makeNsHtmlRequest ⟨true, none, none⟩ "page=x" [] "0" "sv"
      (.responds ⟨200, "OK", "done", "u"⟩) true true).deferredTrace = [] ∧
    issuedFetch ((makeNsHtmlRequest ⟨true, none, none⟩ "page=x" [] "0" "sv"
      (.responds ⟨200, "OK", "done", "u"⟩) true true).syncTrace ++
      (makeNsHtmlRequest ⟨true, none, none⟩ "page=x" [] "0" "sv"
      (.responds ⟨200, "OK", "done", "u"⟩) true true).deferredTrace) = false :=
  claim_C2_second_call_rejected ⟨true, none, none⟩ "page=x" [] "0" "sv"
    (.responds ⟨200, "OK", "done", "u"⟩) true true rfl

/-- C4 counterexample: with caller field `a=1` and stored tokens, the
`chk` field does not come before the caller field in the form body, so
the tokens are not injected ahead of the caller-supplied fields. -/
theorem claim_C4_counterexample :
    ¬ ((buildPayloadParams [("a", "1")] (some "c") (some "l")).findIdx
        (fun kv => kv.1 == "chk") <
       (buildPayloadParams [("a", "1")] (some "c") (some "l")).findIdx
        (fun kv => kv.1 == "a")) := by
  decide

/-- C4 amended: every form body that `makeNsHtmlRequest` sends consists of
the caller-supplied fields first, in order, followed by the injected
`chk` and `localid` token fields. -/
theorem claim_C4_tokens_after_caller_fields (s : SimState) (p : String)
    (pl : List (String × String)) (uc sv : String) (f : FetchResult) (fr su : Bool)
    (h : s.isHtmlRequestInProgress = false) :
    sentBodies ((makeNsHtmlRequest s p pl uc sv f fr su).syncTrace) =
      [pl ++ tokenField "chk" s.lastKnownChk ++ tokenField "localid" s.lastKnownLocalid] := by
  cases f <;>
    simp [makeNsHtmlRequest, handleCheck, h, sentBodies, buildPayloadParams]

theorem claim_C4_witness :
    sentBodies ((makeNsHtmlRequest ⟨false, some "c", some "l"⟩ "page=x" [("a", "1")] "0" "sv"
      (.responds ⟨200, "OK", "done", "u"⟩) true true).syncTrace) =
      [[("a", "1")] ++ tokenField "chk" (some "c") ++ tokenField "localid" (some "l")] :=
  claim_C4_tokens_after_caller_fields ⟨false, some "c", some "l"⟩ "page=x" [("a", "1")] "0" "sv"
    (.responds ⟨200, "OK", "done", "u"⟩) true true rfl

/-- C5: classification is deterministic with fixed precedence: a non-2xx
status yields transport failure regardless of the body; on a 2xx response
the authentication marker is checked before the challenge marker, so any
body containing the authentication marker (with or without the challenge
marker) yields authentication failure, never the challenge outcome; a 2xx
body carrying only the challenge marker yields the challenge outcome; and
success holds exactly when the status is 2xx and neither marker occurs in
the body. -/
theorem claim_C5_classification_precedence (r : Resp) :
    (r.ok = false → classify r = .transportFailure) ∧
    (r.ok = true → includes r.body "Failed security check" = true →
      classify r = .authenticationFailure) ∧
    (r.ok = true → includes r.body "Failed security check" = false →
      includes r.body "Border Patrol" = true → classify r = .challengeRequired) ∧
    (classify r = .success ↔
      (r.ok = true ∧ includes r.body "Failed security check" = false ∧
        includes r.body "Border Patrol" = false)) := by
  refine ⟨fun h => ?_, fun h h1 => ?_, fun h h1 h2 => ?_, ?_⟩
  · simp [classify, h]
  · simp [classify, h, h1]
  · simp [classify, h, h1, h2]
  · cases hok : r.ok
    · simp [classify, hok]
    · cases ha : includes r.body "Failed security check"
      · cases hb : includes r.body "Border Patrol"
        · simp [classify, hok, ha, hb]
        · simp [classify, hok, ha, hb]
      · simp [classify, hok, ha]

theorem claim_C5_witness :
    classify ⟨500, "ISE", "Success! Border Patrol", "u"⟩ = .transportFailure ∧
    classify ⟨200, "OK", "x Failed security check y Border Patrol z", "u"⟩ =
      .authenticationFailure ∧
    classify ⟨200, "OK", "a Border Patrol b", "u"⟩ = .challengeRequired ∧
    classify ⟨200, "OK", "all quiet", "u"⟩ = .success ∧
    (classify ⟨200, "OK", "c Failed security check d", "u"⟩ = .success ↔
      ((⟨200, "OK", "c Failed security check d", "u"⟩ : Resp).ok = true ∧
        includes "c Failed security check d" "Failed security check" = false ∧
        includes "c Failed security check d" "Border Patrol" = false)) :=
  ⟨(claim_C5_classification_precedence _).1 (by decide),
   (claim_C5_classification_precedence _).2.1 (by decide) (by decide),
   (claim_C5_classification_precedence _).2.2.1 (by decide) (by decide) (by decide),
   ((claim_C5_classification_precedence _).2.2.2).mpr ⟨by decide, by decide, by decide⟩,
   (claim_C5_classification_precedence _).2.2.2⟩

/-- C8 counterexample: a stored `chk` value that is present but empty is
omitted from the form body, so inclusion is not equivalent to presence of
a stored value. -/
theorem claim_C8_counterexample :
    (some "" : Option String).isSome = true ∧
    hasField (buildPayloadParams [] (some "") (some "x")) "chk" = false := by
  decide

/-- C8 amended: provided the caller payload itself carries no `chk` or
`localid` field, the injected token field is present in the form body
exactly when the stored value is truthy, i.e. present and nonempty;
absent or empty values are omitted entirely. -/
theorem claim_C8_token_included_iff_truthy (pl : List (String × String))
    (chk lid : Option String)
    (h1 : hasField pl "chk" = false) (h2 : hasField pl "localid" = false) :
    hasField (buildPayloadParams pl chk lid) "chk" = jsTruthy chk ∧
    hasField (buildPayloadParams pl chk lid) "localid" = jsTruthy lid := by
  rw [buildPayloadParams]
  constructor <;>
    simp [hasField_append, hasField_tokenField, h1, h2,
      (by decide : (("localid" : String) == "chk") = false),
      (by decide : (("chk" : String) == "localid") = false)]

theorem claim_C8_witness :
    (hasField [("a", "1")] "chk" = false) ∧
    (hasField [("a", "1")] "localid" = false) ∧
    hasField (buildPayloadParams [("a", "1")] (some "c") none) "chk" = jsTruthy (some "c") ∧
    hasField (buildPayloadParams [("a", "1")] (some "c") none) "localid" = jsTruthy none :=
  ⟨by decide, by decide,
   (claim_C8_token_included_iff_truthy [("a", "1")] (some "c") none
      (by decide) (by decide)).1,
   (claim_C8_token_included_iff_truthy [("a", "1")] (some "c") none
      (by decide) (by decide)).2⟩

/-- C9: the decoration-suppression parameter `template-overall=none` is in
the query exactly when the target path does not end in ".cgi". -/
theorem claim_C9_template_overall_iff_not_cgi (uc sv pagePath : String) :
    hasField (buildRequestParams uc sv pagePath) "template-overall" =
      !(jsEndsWith pagePath ".cgi") := by
  cases h : jsEndsWith pagePath ".cgi" <;>
    simp [buildRequestParams, hasField, h,
      (by decide : (("userclick" : String) == "template-overall") = false),
      (by decide : (("script" : String) == "template-overall") = false)]

end NsDotJs
namespace NsDotJs

/-- C6: whenever the gate is acquired, the user-input (readiness) handler
resolves after the successful simultaneity check and before the fetch is
issued: the readiness event occurs in the trace, no fetch event precedes
the first readiness event, and no readiness event precedes the
successful check. -/
theorem claim_C6_readiness_before_fetch (s : SimState) (p : String)
    (pl : List (String × String)) (uc sv : String) (f : FetchResult) (fr su : Bool)
    (h : s.isHtmlRequestInProgress = false) :
    ((makeNsHtmlRequest s p pl uc sv f fr su).syncTrace ++
      (makeNsHtmlRequest s p pl uc sv f fr su).deferredTrace).any Ev.isUserInput = true ∧
    issuedFetch (((makeNsHtmlRequest s p pl uc sv f fr su).syncTrace ++
      (makeNsHtmlRequest s p pl uc sv f fr su).deferredTrace).takeWhile
        (fun e => !(Ev.isUserInput e))) = false ∧
    (((makeNsHtmlRequest s p pl uc sv f fr su).syncTrace ++
      (makeNsHtmlRequest s p pl uc sv f fr su).deferredTrace).takeWhile
        (fun e => !(Ev.isCheckTrue e))).any Ev.isUserInput = false := by
  cases f <;> cases su <;>
    simp [makeNsHtmlRequest, handleCheck, h, issuedFetch,
      Ev.isUserInput, Ev.isCheckTrue, Ev.isFetchStart, List.takeWhile]

theorem claim_C6_witness :
    ((makeNsHtmlRequest ⟨false, none, none⟩ "page=x" [] "0" "sv"
      (.responds ⟨200, "OK", "done", "u"⟩) true true).syncTrace ++
      (makeNsHtmlRequest ⟨false, none, none⟩ "page=x" [] "0" "sv"
      (.responds ⟨200, "OK", "done", "u"⟩) true true).deferredTrace).any Ev.isUserInput = true ∧
    issuedFetch (((makeNsHtmlRequest ⟨false, none, none⟩ "page=x" [] "0" "sv"
      (.responds ⟨200, "OK", "done", "u"⟩) true true).syncTrace ++
      (makeNsHtmlRequest ⟨false, none, none⟩ "page=x" [] "0" "sv"
      (.responds ⟨200, "OK", "done", "u"⟩) true true).deferredTrace).takeWhile
        (fun e => !(Ev.isUserInput e))) = false ∧
    (((makeNsHtmlRequest ⟨false, none, none⟩ "page=x" [] "0" "sv"
      (.responds ⟨200, "OK", "done", "u"⟩) true true).syncTrace ++
      (makeNsHtmlRequest ⟨false, none, none⟩ "page=x" [] "0" "sv"
      (.responds ⟨200, "OK", "done", "u"⟩) true true).deferredTrace).takeWhile
        (fun e => !(Ev.isCheckTrue e))).any Ev.isUserInput = false :=
  claim_C6_readiness_before_fetch ⟨false, none, none⟩ "page=x" [] "0" "sv"
    (.responds ⟨200, "OK", "done", "u"⟩) true true rfl

/-- C7 counterexample: all four failure outcomes of the pipeline are plain
`Error` objects with the same type tag (`name = "Error"`); they differ
only in their message strings, so a caller cannot branch on the error
class without inspecting messages. -/
theorem claim_C7_counterexample :
    (makeNsHtmlRequest ⟨true, none, none⟩ "p" [] "0" "sv"
      (.responds ⟨200, "OK", "done", "u"⟩) true true).result =
      .error { name := "Error", message := "Simultaneity check failed. Please try again." } ∧
    (getNsHtmlPage ⟨false, none, none⟩ "p" [] "0" "sv"
      (.responds ⟨404, "Not Found", "", "u"⟩) (fun _ => (none, none))).result =
      .error { name := "Error", message := "Failed to fetch page: Not Found" } ∧
    (getNsHtmlPage ⟨false, none, none⟩ "p" [] "0" "sv"
      (.responds ⟨200, "OK", "x Failed security check x", "u"⟩) (fun _ => (none, none))).result =
      .error { name := "Error",
               message := "Failed security check. Please run reauth and try again." } ∧
    (getNsHtmlPage ⟨false, none, none⟩ "p" [] "0" "sv"
      (.responds ⟨200, "OK", "x Border Patrol x", "u"⟩) (fun _ => (none, none))).result =
      .error { name := "Error",
               message := "You need to solve the border patrol captcha before proceeding." } := by
  decide

theorem stringAppend_ne_of_take_ne (p st q : String)
    (h : q.data.take p.data.length ≠ p.data) : p ++ st ≠ q := by
  intro he
  apply h
  rw [← he, String.data_append, List.take_left]

/-- C7 amended: the four failure outcomes are distinguishable only by
their message strings: the three fixed messages are pairwise distinct,
and the transport message, which carries the statusText rather than the
numeric status, differs from each fixed message whatever the statusText
is. -/
theorem claim_C7_errors_distinguishable_by_message (st : String) :
    mkError "Simultaneity check failed. Please try again." ≠
      mkError "Failed security check. Please run reauth and try again." ∧
    mkError "Simultaneity check failed. Please try again." ≠
      mkError "You need to solve the border patrol captcha before proceeding." ∧
    mkError "Failed security check. Please run reauth and try again." ≠
      mkError "You need to solve the border patrol captcha before proceeding." ∧
    mkError ("Failed to fetch page: " ++ st) ≠
      mkError "Simultaneity check failed. Please try again." ∧
    mkError ("Failed to fetch page: " ++ st) ≠
      mkError "Failed security check. Please run reauth and try again." ∧
    mkError ("Failed to fetch page: " ++ st) ≠
      mkError "You need to solve the border patrol captcha before proceeding." := by
  refine ⟨by decide, by decide, by decide, ?_, ?_, ?_⟩ <;>
  · intro he
    have hm := congrArg JsError.message he
    exact stringAppend_ne_of_take_ne "Failed to fetch page: " st _ (by decide) hm

end NsDotJs
namespace NsDotJs

/-- C3 counterexample: on a successful page fetch the gate-release event
occurs strictly before the token-store update event in the trace, so the
gate is not released only after the token update completes. -/
theorem claim_C3_counterexample :
    (getNsHtmlPage ⟨false, none, none⟩ "page=x" [] "0" "sv"
      (.responds ⟨200, "OK", "fresh page", "u"⟩)
      (fun _ => (some "c2", some "l2"))).syncTrace.findIdx Ev.isUnlock <
    (getNsHtmlPage ⟨false, none, none⟩ "page=x" [] "0" "sv"
      (.responds ⟨200, "OK", "fresh page", "u"⟩)
      (fun _ => (some "c2", some "l2"))).syncTrace.findIdx Ev.isStoreAuth := by
  decide

/-- C3 amended: although the gate is released before the token-store
update, the update still completes before `getNsHtmlPage` returns: after
a successful call whose response yields fresh tokens, the state at return
holds the new pair and the gate is free, and any next call issued from
that state sends a form body carrying both updated token fields. -/
theorem claim_C3_update_before_return (s : SimState) (p : String)
    (pl : List (String × String)) (uc sv : String) (r : Resp) (c l : String)
    (p2 : String) (pl2 : List (String × String)) (uc2 sv2 : String)
    (f2 : FetchResult) (fr2 su2 : Bool)
    (h : s.isHtmlRequestInProgress = false) (hok : r.ok = true)
    (h1 : includes r.body "Failed security check" = false)
    (h2 : includes r.body "Border Patrol" = false)
    (hc : (c == "") = false) (hl : (l == "") = false) :
    (getNsHtmlPage s p pl uc sv (.responds r) (fun _ => (some c, some l))).result =
      .ok r.body ∧
    (runEvents s (getNsHtmlPage s p pl uc sv (.responds r)
      (fun _ => (some c, some l))).syncTrace).isHtmlRequestInProgress = false ∧
    (runEvents s (getNsHtmlPage s p pl uc sv (.responds r)
      (fun _ => (some c, some l))).syncTrace).lastKnownChk = some c ∧
    (runEvents s (getNsHtmlPage s p pl uc sv (.responds r)
      (fun _ => (some c, some l))).syncTrace).lastKnownLocalid = some l ∧
    (sentBodies ((makeNsHtmlRequest
      (runEvents s (getNsHtmlPage s p pl uc sv (.responds r)
        (fun _ => (some c, some l))).syncTrace)
      p2 pl2 uc2 sv2 f2 fr2 su2).syncTrace)).all
        (fun b => hasField b "chk" && hasField b "localid") = true := by
  have hout : getNsHtmlPage s p pl uc sv (.responds r) (fun _ => (some c, some l)) =
      { result := .ok r.body
        syncTrace := [.check true, .userInput, .lock,
          .fetchStart (buildRequestParams uc sv p)
            (buildPayloadParams pl s.lastKnownChk s.lastKnownLocalid) true,
          .unlock, .storeAuthEv (some c, some l)]
        deferredTrace := [] } := by
    simp [getNsHtmlPage, makeNsHtmlRequest, handleCheck, h, hok, h1, h2]
  rw [hout]
  have hs2 : runEvents s [Ev.check true, Ev.userInput, Ev.lock,
      Ev.fetchStart (buildRequestParams uc sv p)
        (buildPayloadParams pl s.lastKnownChk s.lastKnownLocalid) true,
      Ev.unlock, Ev.storeAuthEv (some c, some l)] =
      { isHtmlRequestInProgress := false, lastKnownChk := some c, lastKnownLocalid := some l } := by
    simp [runEvents, Ev.apply, storeAuth]
  rw [hs2]
  refine ⟨rfl, rfl, rfl, rfl, ?_⟩
  cases f2 <;>
    simp [makeNsHtmlRequest, handleCheck, sentBodies, buildPayloadParams,
      tokenField, hc, hl, hasField_append, hasField]

theorem claim_C3_witness :
    (getNsHtmlPage ⟨false, some "c1", none⟩ "page=x" [("a", "1")] "0" "sv"
      (.responds ⟨200, "OK", "fresh page", "u"⟩) (fun _ => (some "c2", some "l2"))).result =
      .ok "fresh page" ∧
    (runEvents ⟨false, some "c1", none⟩ (getNsHtmlPage ⟨false, some "c1", none⟩ "page=x"
      [("a", "1")] "0" "sv" (.responds ⟨200, "OK", "fresh page", "u"⟩)
      (fun _ => (some "c2", some "l2"))).syncTrace).isHtmlRequestInProgress = false ∧
    (runEvents ⟨false, some "c1", none⟩ (getNsHtmlPage ⟨false, some "c1", none⟩ "page=x"
      [("a", "1")] "0" "sv" (.responds ⟨200, "OK", "fresh page", "u"⟩)
      (fun _ => (some "c2", some "l2"))).syncTrace).lastKnownChk = some "c2" ∧
    (runEvents ⟨false, some "c1", none⟩ (getNsHtmlPage ⟨false, some "c1", none⟩ "page=x"
      [("a", "1")] "0" "sv" (.responds ⟨200, "OK", "fresh page", "u"⟩)
      (fun _ => (some "c2", some "l2"))).syncTrace).lastKnownLocalid = some "l2" ∧
    (sentBodies ((makeNsHtmlRequest
      (runEvents ⟨false, some "c1", none⟩ (getNsHtmlPage ⟨false, some "c1", none⟩ "page=x"
        [("a", "1")] "0" "sv" (.responds ⟨200, "OK", "fresh page", "u"⟩)
        (fun _ => (some "c2", some "l2"))).syncTrace)
      "page=y" [("b", "2")] "1" "sv" (.responds ⟨200, "OK", "done", "u"⟩) true true).syncTrace)).all
        (fun b => hasField b "chk" && hasField b "localid") = true :=
  claim_C3_update_before_return ⟨false, some "c1", none⟩ "page=x" [("a", "1")] "0" "sv"
    ⟨200, "OK", "fresh page", "u"⟩ "c2" "l2" "page=y" [("b", "2")] "1" "sv"
    (.responds ⟨200, "OK", "done", "u"⟩) true true rfl (by decide) (by decide) (by decide)
    (by decide) (by decide)

/-- C10: when `getNsHtmlPage` fails on the security-check marker or the
Border Patrol marker, no token-store update happens anywhere in the call
(neither before return nor in a deferred continuation), the stored token
pair is unchanged, and the call does not return a page. -/
theorem claim_C10_store_unchanged_on_marker_failure (s : SimState) (p : String)
    (pl : List (String × String)) (uc sv : String) (r : Resp)
    (ex : String → Option String × Option String)
    (h : s.isHtmlRequestInProgress = false) (hok : r.ok = true)
    (hm : includes r.body "Failed security check" = true ∨
          includes r.body "Border Patrol" = true) :
    ((getNsHtmlPage s p pl uc sv (.responds r) ex).syncTrace ++
      (getNsHtmlPage s p pl uc sv (.responds r) ex).deferredTrace).any Ev.isStoreAuth = false ∧
    (runEvents s ((getNsHtmlPage s p pl uc sv (.responds r) ex).syncTrace ++
      (getNsHtmlPage s p pl uc sv (.responds r) ex).deferredTrace)).lastKnownChk =
      s.lastKnownChk ∧
    (runEvents s ((getNsHtmlPage s p pl uc sv (.responds r) ex).syncTrace ++
      (getNsHtmlPage s p pl uc sv (.responds r) ex).deferredTrace)).lastKnownLocalid =
      s.lastKnownLocalid ∧
    (getNsHtmlPage s p pl uc sv (.responds r) ex).result.isOk = false := by
  by_cases ha : includes r.body "Failed security check" = true
  · simp [getNsHtmlPage, makeNsHtmlRequest, handleCheck, h, hok, ha,
      runEvents, Ev.apply, Ev.isStoreAuth, Except.isOk, Except.toBool]
  · have hb : includes r.body "Border Patrol" = true := hm.resolve_left ha
    have ha2 : includes r.body "Failed security check" = false := by
      revert ha; cases includes r.body "Failed security check" <;> simp
    simp [getNsHtmlPage, makeNsHtmlRequest, handleCheck, h, hok, ha2, hb,
      runEvents, Ev.apply, Ev.isStoreAuth, Except.isOk, Except.toBool]

theorem claim_C10_witness :
    ((getNsHtmlPage ⟨false, some "c1", some "l1"⟩ "page=x" [] "0" "sv"
      (.responds ⟨200, "OK", "x Failed security check x", "u"⟩)
      (fun _ => (some "z", some "z"))).syncTrace ++
      (getNsHtmlPage ⟨false, some "c1", some "l1"⟩ "page=x" [] "0" "sv"
      (.responds ⟨200, "OK", "x Failed security check x", "u"⟩)
      (fun _ => (some "z", some "z"))).deferredTrace).any Ev.isStoreAuth = false ∧
    (runEvents ⟨false, some "c1", some "l1"⟩
      ((getNsHtmlPage ⟨false, some "c1", some "l1"⟩ "page=x" [] "0" "sv"
      (.responds ⟨200, "OK", "x Failed security check x", "u"⟩)
      (fun _ => (some "z", some "z"))).syncTrace ++
      (getNsHtmlPage ⟨false, some "c1", some "l1"⟩ "page=x" [] "0" "sv"
      (.responds ⟨200, "OK", "x Failed security check x", "u"⟩)
      (fun _ => (some "z", some "z"))).deferredTrace)).lastKnownChk = some "c1" ∧
    (runEvents ⟨false, some "c1", some "l1"⟩
      ((getNsHtmlPage ⟨false, some "c1", some "l1"⟩ "page=x" [] "0" "sv"
      (.responds ⟨200, "OK", "x Failed security check x", "u"⟩)
      (fun _ => (some "z", some "z"))).syncTrace ++
      (getNsHtmlPage ⟨false, some "c1", some "l1"⟩ "page=x" [] "0" "sv"
      (.responds ⟨200, "OK", "x Failed security check x", "u"⟩)
      (fun _ => (some "z", some "z"))).deferredTrace)).lastKnownLocalid = some "l1" ∧
    (getNsHtmlPage ⟨false, some "c1", some "l1"⟩ "page=x" [] "0" "sv"
      (.responds ⟨200, "OK", "x Failed security check x", "u"⟩)
      (fun _ => (some "z", some "z"))).result.isOk = false :=
  claim_C10_store_unchanged_on_marker_failure ⟨false, some "c1", some "l1"⟩ "page=x" [] "0" "sv"
    ⟨200, "OK", "x Failed security check x", "u"⟩ (fun _ => (some "z", some "z")) rfl
    (by decide) (Or.inl (by decide))

end NsDotJs
namespace NsDotJs

theorem getNsHtmlPage_follows_classify (s : SimState) (p : String)
    (pl : List (String × String)) (uc sv : String) (r : Resp)
    (ex : String → Option String × Option String)
    (h : s.isHtmlRequestInProgress = false) :
    (getNsHtmlPage s p pl uc sv (.responds r) ex).result =
      (match classify r with
       | .transportFailure => .error (mkError ("Failed to fetch page: " ++ r.statusText))
       | .authenticationFailure =>
           .error (mkError "Failed security check. Please run reauth and try again.")
       | .challengeRequired =>
           .error (mkError "You need to solve the border patrol captcha before proceeding.")
       | .success => .ok r.body) := by
  by_cases hok : r.ok = false
  · simp [getNsHtmlPage, makeNsHtmlRequest, handleCheck, h, classify, hok]
  · have hok2 : r.ok = true := by revert hok; cases r.ok <;> simp
    by_cases ha : includes r.body "Failed security check" = true
    · simp [getNsHtmlPage, makeNsHtmlRequest, handleCheck, h, classify, hok2, ha]
    · have ha2 : includes r.body "Failed security check" = false := by
        revert ha; cases includes r.body "Failed security check" <;> simp
      by_cases hb : includes r.body "Border Patrol" = true
      · simp [getNsHtmlPage, makeNsHtmlRequest, handleCheck, h, classify, hok2, ha2, hb]
      · have hb2 : includes r.body "Border Patrol" = false := by
          revert hb; cases includes r.body "Border Patrol" <;> simp
        simp [getNsHtmlPage, makeNsHtmlRequest, handleCheck, h, classify, hok2, ha2, hb2]

end NsDotJs
namespace NsDotJs

theorem claim_C7_witness :
    mkError "Simultaneity check failed. Please try again." ≠
      mkError "Failed security check. Please run reauth and try again." ∧
    mkError "Simultaneity check failed. Please try again." ≠
      mkError "You need to solve the border patrol captcha before proceeding." ∧
    mkError "Failed security check. Please run reauth and try again." ≠
      mkError "You need to solve the border patrol captcha before proceeding." ∧
    mkError ("Failed to fetch page: " ++ "Not Found") ≠
      mkError "Simultaneity check failed. Please try again." ∧
    mkError ("Failed to fetch page: " ++ "Not Found") ≠
      mkError "Failed security check. Please run reauth and try again." ∧
    mkError ("Failed to fetch page: " ++ "Not Found") ≠
      mkError "You need to solve the border patrol captcha before proceeding." :=
  claim_C7_errors_distinguishable_by_message "Not Found"

theorem claim_C9_witness :
    hasField (buildRequestParams "0" "sv" "page=move_region") "template-overall" =
      !(jsEndsWith "page=move_region" ".cgi") ∧
    hasField (buildRequestParams "0" "sv" "cgi-bin/endorse.cgi") "template-overall" =
      !(jsEndsWith "cgi-bin/endorse.cgi" ".cgi") :=
  ⟨claim_C9_template_overall_iff_not_cgi "0" "sv" "page=move_region",
   claim_C9_template_overall_iff_not_cgi "0" "sv" "cgi-bin/endorse.cgi"⟩

end NsDotJs
